import Mathlib

/-!
Shallow embedding of the TgRentalBot sources (`main.py`, the primary
owner-forwarding variant, and `main_backup.py`, the legacy group
keyword-monitoring variant) together with theorems checking the
natural-language specification against this embedding.

Python dicts are modelled as association lists where insertion prepends
(`dictGet` finds the most recent binding, so last write wins, exactly as a
dict assignment), Python sets as lists with membership-guarded insertion,
and the external collaborators (Telegram transport, OpenAI provider) as
explicit outcome parameters.
-/

namespace TgBot

/-- Python dict lookup `m.get(k)`: the most recently inserted binding wins. -/
def dictGet {K V : Type} [BEq K] (m : List (K × V)) (k : K) : Option V :=
  (m.find? (fun p => p.1 == k)).map Prod.snd

/-- Python dict assignment `m[k] = v`, modelled by prepending (shadowing). -/
def dictInsert {K V : Type} (k : K) (v : V) (m : List (K × V)) : List (K × V) :=
  (k, v) :: m

/-- Python `set.add`. -/
def setAdd (s : List Int) (u : Int) : List Int :=
  if u ∈ s then s else u :: s

theorem dictGet_insert_self {K V : Type} [BEq K] [LawfulBEq K]
    (m : List (K × V)) (k : K) (v : V) :
    dictGet (dictInsert k v m) k = some v := by
  simp [dictGet, dictInsert, List.find?]

theorem dictGet_insert_ne {K V : Type} [BEq K] [LawfulBEq K]
    (m : List (K × V)) (k k' : K) (v : V) (h : k' ≠ k) :
    dictGet (dictInsert k' v m) k = dictGet m k := by
  have hb : (k' == k) = false := beq_false_of_ne h
  simp [dictGet, dictInsert, List.find?, hb]

theorem mem_setAdd_of_mem {s : List Int} {u : Int} (v : Int) (h : u ∈ s) :
    u ∈ setAdd s v := by
  unfold setAdd
  split
  · exact h
  · exact List.mem_cons_of_mem _ h

theorem setAdd_mem_self (s : List Int) (u : Int) : u ∈ setAdd s u := by
  unfold setAdd
  split
  · assumption
  · exact List.mem_cons_self _ _

theorem setAdd_of_mem {s : List Int} {u : Int} (h : u ∈ s) : setAdd s u = s := by
  simp [setAdd, h]

/-! ### Kernel-computable string helpers

`String.trim`, `String.split`, `String.startsWith` and `String.toLower` are
implemented on byte positions by well-founded recursion, which the kernel
does not reduce; the embedding uses these structural equivalents over the
underlying character list instead. -/

/-- Python `str.strip()`: drop leading and trailing whitespace. -/
def pyStrip (s : String) : String :=
  ⟨((s.data.dropWhile Char.isWhitespace).reverse.dropWhile Char.isWhitespace).reverse⟩

/-- Python `str.lower()` (ASCII case folding). -/
def pyToLower (s : String) : String :=
  ⟨s.data.map Char.toLower⟩

/-- Source: `s.startswith(pre)`. -/
def pyStartsWith (s pre : String) : Bool :=
  pre.data.isPrefixOf s.data

/-- Python `str.split()` with no argument: split on whitespace runs,
dropping empty fields. -/
def pySplitWs (s : String) : List String :=
  ((s.data.splitOnP Char.isWhitespace).filter (fun w => w ≠ [])).map
    (fun w => ⟨w⟩)

/-! ## Data model (`main.py`) -/

/-- Telegram chat types (`telegram.constants.ChatType`). -/
inductive TgChatType
  | priv
  | group
  | supergroup
  | channel
deriving DecidableEq, Repr

/-- Process-wide configuration parsed at startup from environment variables. -/
structure Config where
  /-- Source: `FORWARD_TO`: chat ids receiving forwarded private DMs. -/
  forwardTo : List Int
  /-- Source: `OWNER_IDS`: owner (admin) user ids. -/
  ownerIds : List Int
  /-- Source: `DEFAULT_MODEL` (`OPENAI_MODEL`, default `gpt-5-mini`). -/
  defaultModel : String
  /-- Source: `AUTH_PASSWORD`; the empty string means no password is configured. -/
  authPassword : String
deriving DecidableEq, Repr

/-- The mutable process-wide maps of `main.py`. -/
structure BotState where
  /-- Source: `AUTHORIZED_USERS : Set[int]`. -/
  authorizedUsers : List Int
  /-- Source: `CHAT_MODE : Dict[int, str]`, chat id to `"forward"` or `"chat"`. -/
  chatMode : List (Int × String)
  /-- Source: `MODEL_PER_CHAT : Dict[int, str]`. -/
  modelPerChat : List (Int × String)
  /-- Source: `REPLY_MAP : Dict[Tuple[int, int], int]`. -/
  replyMap : List ((Int × Int) × Int)
deriving DecidableEq, Repr

/-- All maps start empty. -/
def initialState : BotState := ⟨[], [], [], []⟩

/-- One inbound Telegram update, restricted to the fields the handlers read. -/
structure Msg where
  chatId : Int
  chatType : TgChatType
  /-- Source: `update.effective_user`, possibly absent. -/
  userId : Option Int
  userFullName : String
  /-- Source: `user.username`; `none` or the empty string both render as no username. -/
  username : Option String
  messageId : Int
  /-- Source: `none` models a non-text payload. -/
  text : Option String
  /-- Source: `message.reply_to_message.message_id` when the update is a reply. -/
  replyToMessageId : Option Int
deriving DecidableEq, Repr

/-! ## Session store and authorization gate (`main.py` lines 98-126) -/

/-- Source: `get_model`: chosen model for a chat, falling back to the default. -/
def get_model (cfg : Config) (st : BotState) (chatId : Int) : String :=
  (dictGet st.modelPerChat chatId).getD cfg.defaultModel

/-- Source: `set_mode`. -/
def set_mode (st : BotState) (chatId : Int) (mode : String) : BotState :=
  { st with chatMode := dictInsert chatId mode st.chatMode }

/-- Source: `get_mode`: default is `"forward"`. -/
def get_mode (st : BotState) (chatId : Int) : String :=
  (dictGet st.chatMode chatId).getD "forward"

/-- Source: `is_owner_id`. -/
def is_owner_id (cfg : Config) (userId : Option Int) : Bool :=
  match userId with
  | none => false
  | some u => cfg.ownerIds.contains u

/-- Source: `is_authorized_user`: owners implicitly, otherwise the password set. -/
def is_authorized_user (cfg : Config) (st : BotState) (userId : Option Int) : Bool :=
  match userId with
  | none => false
  | some u =>
    if is_owner_id cfg (some u) then true
    else st.authorizedUsers.contains u

/-! ## Reply bridge (`REPLY_MAP` operations) -/

/-- Source: `REPLY_MAP[(target, header_msg.message_id)] = user_id` (main.py line 308). -/
def recordHeader (mp : List ((Int × Int) × Int)) (dest headerId sender : Int) :
    List ((Int × Int) × Int) :=
  dictInsert (dest, headerId) sender mp

/-- Source: `REPLY_MAP.get((chat_id, reply_to_message.message_id))` (main.py line 333). -/
def resolve (mp : List ((Int × Int) × Int)) (conv repliedToId : Int) : Option Int :=
  dictGet mp (conv, repliedToId)

/-- Fold a batch of `recordHeader` calls over a map, for stating facts about
keys that were never recorded. Each triple is (dest, headerId, sender). -/
def recordAll (recs : List (Int × Int × Int)) (mp : List ((Int × Int) × Int)) :
    List ((Int × Int) × Int) :=
  recs.foldl (fun m r => recordHeader m r.1 r.2.1 r.2.2) mp

theorem resolve_recordAll_not_mem (recs : List (Int × Int × Int))
    (mp : List ((Int × Int) × Int)) (d h : Int)
    (hnot : (d, h) ∉ recs.map (fun r => (r.1, r.2.1)))
    (hbase : resolve mp d h = none) :
    resolve (recordAll recs mp) d h = none := by
  induction recs generalizing mp with
  | nil => simpa [recordAll] using hbase
  | cons r rest ih =>
    simp only [List.map_cons, List.mem_cons] at hnot
    push_neg at hnot
    have hkey : (r.1, r.2.1) ≠ (d, h) := fun he => hnot.1 he.symm
    refine ih _ hnot.2 ?_
    simpa [resolve, recordHeader] using
      (dictGet_insert_ne mp ((d, h)) ((r.1, r.2.1)) r.2.2 hkey).trans hbase

/-- C1: after `recordHeader(dest, headerId, sender)` the key `(dest, headerId)`
resolves to `sender`; and for any batch of recorded headers starting from the
empty map, a key that was never recorded resolves to nothing. -/
theorem replyBridge_roundtrip (mp : List ((Int × Int) × Int))
    (dest headerId sender : Int) (recs : List (Int × Int × Int)) (d h : Int)
    (hnot : (d, h) ∉ recs.map (fun r => (r.1, r.2.1))) :
    resolve (recordHeader mp dest headerId sender) dest headerId = some sender ∧
    resolve (recordAll recs []) d h = none := by
  constructor
  · simp [resolve, recordHeader, dictGet_insert_self]
  · exact resolve_recordAll_not_mem recs [] d h hnot (by simp [resolve, dictGet])

/-- C1 witness: a concrete record resolves back to its sender, and a key never
recorded in a concrete two-entry history resolves to nothing. -/
theorem replyBridge_roundtrip_witness :
    resolve (recordHeader [] 100 7 42) 100 7 = some 42 ∧
    resolve (recordAll [(100, 7, 42), (200, 8, 43)] []) 5 9 = none :=
  replyBridge_roundtrip [] 100 7 42 [(100, 7, 42), (200, 8, 43)] 5 9 (by decide)

/-! ## OpenAI helper (`ask_gpt`, main.py lines 137-153) -/

/-- Outcome of the single provider call issued while handling one message:
either the assistant text of the first choice, or a raised exception with its
class name and message. -/
inductive GptOutcome
  | success (content : String)
  | failure (excName excMsg : String)
deriving DecidableEq, Repr

/-- Source: `ask_gpt`: returns the stripped assistant text on success; on any raised
exception returns the diagnostic string built by the `except` branch instead
of propagating. -/
def ask_gpt (outcome : GptOutcome) (_prompt _model : String) : String :=
  match outcome with
  | .success content => pyStrip content
  | .failure excName excMsg => "❌ Error from GPT: " ++ excName ++ ": " ++ excMsg

/-! ## Forwarding and the formatted header (main.py lines 260-319) -/

/-- Python `html.escape` with its default `quote=True`. -/
def htmlEscape (s : String) : String :=
  String.join (s.data.map (fun c =>
    if c = '&' then "&amp;"
    else if c = '<' then "&lt;"
    else if c = '>' then "&gt;"
    else if c = '"' then "&quot;"
    else if c = Char.ofNat 39 then "&#x27;"
    else String.singleton c))

/-- Source: `_format_private_header`. -/
def format_private_header (m : Msg) : String :=
  let text := m.text.getD ""
  let name := pyStrip m.userFullName
  let uname : String :=
    match m.username with
    | some u => if u = "" then "(no username)" else "@" ++ u
    | none => "(no username)"
  let uid : Int := m.userId.getD 0
  "📬 <b>Private DM</b>\n👤 From: <b>" ++ htmlEscape name ++ "</b> "
    ++ htmlEscape uname
    ++ "\n🆔 User ID: <code>" ++ toString uid ++ "</code>\n\n💭 Message:\n"
    ++ htmlEscape text
    ++ "\n\n↩️ <i>Reply to this message to answer the user via the bot.</i>"

/-- One transport send issued by the forwarding loop. -/
inductive SendOp
  | header (target : Int) (text : String)
  | copy (target : Int) (fromChat : Int) (msgId : Int)
deriving DecidableEq, Repr

/-- Per-target transport outcome for the header send: `some id` when
`send_message` returns a message with that id, `none` when it raises. -/
def Transport : Type := Int → Option Int

/-- The `for target in FORWARD_TO` loop body of `forward_if_needed`: skip the
source chat, attempt the header send, record the reply bridge on success and
additionally relay a content copy for non-text payloads; a raised send is
logged and the loop continues with the remaining targets. -/
def forwardLoop (net : Transport) (m : Msg) (uid : Int) (header : String) :
    List Int → BotState → BotState × List SendOp
  | [], st => (st, [])
  | target :: rest, st =>
    if target = m.chatId then forwardLoop net m uid header rest st
    else
      match net target with
      | some headerMsgId =>
        let st1 := { st with
          replyMap := recordHeader st.replyMap target headerMsgId uid }
        let r := forwardLoop net m uid header rest st1
        if (m.text.getD "") = "" then
          (r.1, SendOp.header target header :: SendOp.copy target m.chatId m.messageId :: r.2)
        else
          (r.1, SendOp.header target header :: r.2)
      | none =>
        let r := forwardLoop net m uid header rest st
        (r.1, SendOp.header target header :: r.2)

/-- Source: `forward_if_needed`: no-op when no targets are configured, when the author
is an owner, or when the chat is not private; otherwise runs the loop over
`FORWARD_TO`. Returns the new state and the sends attempted, in order. -/
def forward_if_needed (cfg : Config) (net : Transport) (st : BotState) (m : Msg) :
    BotState × List SendOp :=
  if cfg.forwardTo = [] then (st, [])
  else if is_owner_id cfg m.userId then (st, [])
  else if m.chatType ≠ TgChatType.priv then (st, [])
  else
    forwardLoop net m (m.userId.getD 0) (format_private_header m) cfg.forwardTo st

/-! ## Reply bridge delivery (`handle_reply`, main.py lines 322-349) -/

/-- What `handle_reply` does with an update (delivery intent). -/
inductive ReplyAction
  | nothing
  | deliverText (toUser : Int) (text : String)
  | deliverCopy (toUser : Int) (fromChat : Int) (msgId : Int)
deriving DecidableEq, Repr

/-- Source: `handle_reply`: look the replied-to message up in `REPLY_MAP`; the guard
`if not user_id` also drops a resolved id of `0` (falsy in Python). -/
def handle_reply (st : BotState) (m : Msg) : ReplyAction :=
  match m.replyToMessageId with
  | none => .nothing
  | some rid =>
    match resolve st.replyMap m.chatId rid with
    | none => .nothing
    | some uid =>
      if uid = 0 then .nothing
      else if (m.text.getD "") ≠ "" then .deliverText uid (m.text.getD "")
      else .deliverCopy uid m.chatId m.messageId

/-! ## Unified message handler (`handle_message`, main.py lines 356-383) -/

/-- The single reply `handle_message` may send back into the chat. -/
inductive MsgAction
  | nothing
  | replyText (s : String)
deriving DecidableEq, Repr

/-- Result of `handle_message`: updated state, sends attempted by the
forwarding step, whether the provider was invoked, and the reply sent. -/
structure HMResult where
  st : BotState
  sends : List SendOp
  gptCalled : Bool
  action : MsgAction
deriving DecidableEq, Repr

/-- Source: `handle_message`: always runs `forward_if_needed` first, then the GPT
branch only for private chats in `"chat"` mode, gated on authorization and a
non-blank text. -/
def handle_message (cfg : Config) (net : Transport) (gpt : GptOutcome)
    (st : BotState) (m : Msg) : HMResult :=
  let mode := get_mode st m.chatId
  let fr := forward_if_needed cfg net st m
  let st1 := fr.1
  if m.chatType ≠ TgChatType.priv ∨ mode ≠ "chat" then
    ⟨st1, fr.2, false, .nothing⟩
  else if is_authorized_user cfg st1 m.userId = false then
    if cfg.authPassword ≠ "" then
      ⟨st1, fr.2, false, .replyText "🔐 Unauthorized. Use /auth <password> to enable GPT chat."⟩
    else
      ⟨st1, fr.2, false, .replyText "🔐 GPT chat is restricted. Contact the owner for access."⟩
  else
    let text := m.text.getD ""
    if pyStrip text = "" then ⟨st1, fr.2, false, .nothing⟩
    else ⟨st1, fr.2, true, .replyText (ask_gpt gpt text (get_model cfg st1 m.chatId))⟩

/-! ## Commands (main.py lines 160-244) -/

/-- The commands registered in `main` (main.py lines 397-403). -/
inductive Cmd
  | start
  | status
  | ping
  | chat
  | forward
  | model
  | auth
deriving DecidableEq, Repr

/-- The confirmation `cmd_auth` sends. -/
inductive AuthReply
  | silent
  | ownerAlready
  | noPasswordMsg
  | usageMsg
  | authorizedMsg
  | wrongPasswordMsg
deriving DecidableEq, Repr

/-- Source: `cmd_auth`: owner short-circuit, then the unset-password check, then the
usage check, then the exact (case-sensitive) password comparison; a match adds
the user to `AUTHORIZED_USERS`. -/
def cmd_auth (cfg : Config) (st : BotState) (userId : Option Int)
    (args : List String) : BotState × AuthReply :=
  match userId with
  | none => (st, .silent)
  | some uid =>
    if is_owner_id cfg (some uid) then (st, .ownerAlready)
    else if cfg.authPassword = "" then (st, .noPasswordMsg)
    else
      match args with
      | [] => (st, .usageMsg)
      | a :: _ =>
        if a = cfg.authPassword then
          ({ st with authorizedUsers := setAdd st.authorizedUsers uid }, .authorizedMsg)
        else (st, .wrongPasswordMsg)

/-! ## Handler dispatch (main.py lines 397-409)

`python-telegram-bot` runs at most one handler per handler group; all eight
handlers are added to the default group 0, so they are tried in registration
order: the seven `CommandHandler`s, then `MessageHandler(filters.REPLY &
filters.ALL, handle_reply)`, then `MessageHandler(filters.TEXT &
(~filters.COMMAND), handle_message)`. The first match consumes the update. -/

/-- How the command filters classify a text. -/
inductive CmdParse
  | notCommand
  | unknownCommand
  | known (c : Cmd) (args : List String)
deriving DecidableEq, Repr

/-- Map a first token to the registered command it names, if any. -/
def cmdOfToken (t : String) : Option Cmd :=
  if t = "/start" then some .start
  else if t = "/status" then some .status
  else if t = "/ping" then some .ping
  else if t = "/chat" then some .chat
  else if t = "/forward" then some .forward
  else if t = "/model" then some .model
  else if t = "/auth" then some .auth
  else none

/-- Classify a message text against the command handlers and the `COMMAND`
filter: a text starting with `/` carries a bot-command entity, so it is either
a registered command (with whitespace-separated `context.args`) or excluded
from `handle_message` by `~filters.COMMAND`. -/
def parseCommand (text : String) : CmdParse :=
  if pyStartsWith text "/" then
    match pySplitWs text with
    | [] => .unknownCommand
    | tok :: rest =>
      match cmdOfToken tok with
      | some c => .known c rest
      | none => .unknownCommand
  else .notCommand

/-- The terminal classification of one inbound update. -/
inductive RouteAction
  | commandDone (c : Cmd) (authReply : AuthReply)
  | replyBridge (a : ReplyAction)
  | handled (sends : List SendOp) (gptCalled : Bool) (a : MsgAction)
  | unhandled
deriving DecidableEq, Repr

/-- State effect and classification of each command handler. `/chat` and
`/forward` overwrite the chat mode, `/model` with an argument overwrites the
per-chat model, `/auth` runs the authorization gate; the rest only report. -/
def runCommand (cfg : Config) (st : BotState) (m : Msg) (c : Cmd)
    (args : List String) : BotState × RouteAction :=
  match c with
  | .start => (st, .commandDone .start .silent)
  | .status => (st, .commandDone .status .silent)
  | .ping => (st, .commandDone .ping .silent)
  | .chat => (set_mode st m.chatId "chat", .commandDone .chat .silent)
  | .forward => (set_mode st m.chatId "forward", .commandDone .forward .silent)
  | .model =>
    match args with
    | [] => (st, .commandDone .model .silent)
    | a :: _ =>
      ({ st with modelPerChat := dictInsert m.chatId a st.modelPerChat },
       .commandDone .model .silent)
  | .auth =>
    let r := cmd_auth cfg st m.userId args
    (r.1, .commandDone .auth r.2)

/-- Dispatch one update through the group-0 handlers in registration order:
a registered command wins first; otherwise any reply goes to `handle_reply`
(whether or not its key resolves); otherwise a non-command text goes to
`handle_message`; everything else is unhandled. -/
def dispatch (cfg : Config) (net : Transport) (gpt : GptOutcome)
    (st : BotState) (m : Msg) : BotState × RouteAction :=
  match parseCommand (m.text.getD "") with
  | .known c args => runCommand cfg st m c args
  | .unknownCommand =>
    if m.replyToMessageId.isSome then (st, .replyBridge (handle_reply st m))
    else (st, .unhandled)
  | .notCommand =>
    if m.replyToMessageId.isSome then (st, .replyBridge (handle_reply st m))
    else if m.text.isSome then
      let r := handle_message cfg net gpt st m
      (r.st, .handled r.sends r.gptCalled r.action)
    else (st, .unhandled)

/-! ## `_safe_send` (main.py lines 251-257)

`_safe_send(coro)` awaits the coroutine object it was handed; on `RetryAfter`
it sleeps `retry_after + 1` seconds and then awaits the *same, already
awaited* coroutine object again. Python raises
`RuntimeError: cannot reuse already awaited coroutine` on that second await,
so the retry path never yields a send result. The model makes the single-use
nature of a coroutine object explicit. -/

/-- What the wrapped Telegram call would do when genuinely executed. -/
inductive CallOutcome
  | ok (msgId : Int)
  | raiseRetryAfter (retryAfterSecs : Nat)
  | raiseOther
deriving DecidableEq, Repr

/-- A coroutine object: the underlying call, plus whether it was awaited. -/
structure Coro where
  call : CallOutcome
  consumed : Bool
deriving DecidableEq, Repr

/-- Result of `await c`. -/
inductive AwaitResult
  | value (msgId : Int)
  | raisedRetryAfter (retryAfterSecs : Nat)
  | raisedOther
  | raisedReuse
deriving DecidableEq, Repr

/-- Awaiting a coroutine object: the first await runs the call, any later
await raises `RuntimeError` (cannot reuse already awaited coroutine). -/
def awaitCoro (c : Coro) : AwaitResult × Coro :=
  if c.consumed then (.raisedReuse, c)
  else
    (match c.call with
     | .ok msgId => .value msgId
     | .raiseRetryAfter d => .raisedRetryAfter d
     | .raiseOther => .raisedOther,
     { c with consumed := true })

/-- Source: `_safe_send`: returns the final await result and the total seconds slept. -/
def safe_send (c : Coro) : AwaitResult × Nat :=
  let r1 := awaitCoro c
  match r1.1 with
  | .raisedRetryAfter d =>
    let slept := d + 1
    let r2 := awaitCoro r1.2
    (r2.1, slept)
  | r => (r, 0)

/-! ## Legacy variant: group keyword monitoring (`main_backup.py`) -/

/-- Source: `KEYWORDS` (main_backup.py line 42). -/
def KEYWORDS : List String :=
  ["Netflix", "YouTube", "shared", "rent", "group", "上车", "合租"]

/-- Source: `any(k.lower() in text.lower() for k in KEYWORDS)`. -/
def triggeredBy (text : String) : Bool :=
  KEYWORDS.any (fun k => decide (List.IsInfix (pyToLower k).data (pyToLower text).data))

/-- Python `l[-5:]` generalized: the last `n` elements, in order. -/
def lastN {α : Type} (n : Nat) (l : List α) : List α :=
  (l.reverse.take n).reverse

/-- Source: `ask_gpt` of the backup variant (its diagnostic omits the class name). -/
def ask_gpt_backup (outcome : GptOutcome) (_prompt _model : String) : String :=
  match outcome with
  | .success content => pyStrip content
  | .failure _ excMsg => "❌ Error from GPT: " ++ excMsg

/-- Source: `build_lines_header` (main_backup.py lines 79-85). -/
def build_lines_header (title username : String) (uid : Int) : String :=
  String.intercalate "\n"
    [title,
     if username ≠ "NoUsername" then "👤 From: @" ++ username
     else "👤 From: (no username)",
     "🆔 User ID: " ++ toString uid]

/-- The summary prompt built from the retained messages. -/
def summary_prompt_for (msgs : List String) : String :=
  "Please summarize the following user messages into concise, useful points for the group owner. Focus on any keyword-related content.\n\n"
    ++ String.intercalate "\n" msgs

/-- The owner alert body: header, raw retained messages, GPT summary. -/
def owner_body_for (username : String) (uid : Int) (msgs : List String)
    (summary : String) : String :=
  String.intercalate "\n\n"
    [build_lines_header "📩 *Group Trigger*" username uid,
     "🗣 Recent Messages:\n" ++ String.intercalate "\n" msgs,
     "🧠 Summary by GPT:\n" ++ summary]

/-- The three messages sent when a group message triggers a keyword. -/
structure GroupAlert where
  summaryPrompt : String
  ownerBody : String
  groupReply : String
deriving DecidableEq, Repr

/-- The group branch of the backup `handle_message` (lines 164-189): on a
keyword match, append the text to the per-sender buffer, keep the last 5,
summarize exactly the retained buffer via GPT and alert the owner with it. -/
def group_step (gpt : GptOutcome) (currentModel : String)
    (um : List (Int × List String)) (uid : Int) (username : String)
    (text : String) : List (Int × List String) × Option GroupAlert :=
  if triggeredBy text then
    let msgs := ((dictGet um uid).getD []) ++ [text]
    let kept := lastN 5 msgs
    let um1 := dictInsert uid kept um
    let prompt := summary_prompt_for kept
    let summary := ask_gpt_backup gpt prompt currentModel
    (um1, some ⟨prompt, owner_body_for username uid kept summary,
      "🔔 Hey @" ++ username ++ ", your message triggered a keyword alert!"⟩)
  else (um, none)

/-- Fold a sequence of group messages from one sender through `group_step`. -/
def foldGroup (gpt : GptOutcome) (currentModel : String) (uid : Int)
    (username : String) (um : List (Int × List String)) (texts : List String) :
    List (Int × List String) :=
  texts.foldl (fun acc t => (group_step gpt currentModel acc uid username t).1) um

/-! ## Session-store operation sequences (for stating isolation) -/

/-- An explicit mode or model set operation on the session store. -/
inductive SessionOp
  | modeOp (c : Int) (mode : String)
  | modelOp (c : Int) (model : String)
deriving DecidableEq, Repr

/-- The conversation an operation targets. -/
def SessionOp.target : SessionOp → Int
  | .modeOp c _ => c
  | .modelOp c _ => c

/-- Apply one operation: `set_mode` or the `MODEL_PER_CHAT` assignment of
`cmd_model`. -/
def applySessionOp (st : BotState) : SessionOp → BotState
  | .modeOp c mode => set_mode st c mode
  | .modelOp c model => { st with modelPerChat := dictInsert c model st.modelPerChat }

/-- Apply a sequence of operations, oldest first. -/
def applySessionOps (st : BotState) (ops : List SessionOp) : BotState :=
  ops.foldl applySessionOp st

/-! ## The router as the specification words it (refinement comparison) -/

/-- Outcome of the first two spec router steps: the principal a reply was
delivered to (step 1), and the destinations forwarded to (step 2). -/
structure SpecRouteResult where
  delivered : Option Int
  forwardedTo : List Int
deriving DecidableEq, Repr

/-- The forwarding destinations as the spec words them (step 2 of §4.4). -/
def specForwardSet (cfg : Config) (m : Msg) : List Int :=
  if m.chatType = TgChatType.priv ∧ is_owner_id cfg m.userId = false
      ∧ cfg.forwardTo ≠ [] then
    cfg.forwardTo.filter (fun t => t ≠ m.chatId)
  else []

/-- The router steps 1-2 as the spec words them: the reply-to-header check is
terminal only when `resolve` yields an originating principal; a reply whose
key does not resolve falls through to the forwarding step. Stated from the
wording of the spec for comparison with `dispatch`. -/
def specRoute (cfg : Config) (st : BotState) (m : Msg) : SpecRouteResult :=
  match m.replyToMessageId with
  | some rid =>
    match resolve st.replyMap m.chatId rid with
    | some p => ⟨some p, []⟩
    | none => ⟨none, specForwardSet cfg m⟩
  | none => ⟨none, specForwardSet cfg m⟩

/-! ## Helper lemmas about the forwarding loop and handler state -/

/-- The header-send targets among a list of send operations, in order. -/
def headerTargets (ops : List SendOp) : List Int :=
  ops.filterMap (fun op =>
    match op with
    | .header t _ => some t
    | .copy _ _ _ => none)

@[simp] theorem headerTargets_nil : headerTargets [] = [] := rfl

@[simp] theorem headerTargets_cons_header (t : Int) (h : String) (ops : List SendOp) :
    headerTargets (SendOp.header t h :: ops) = t :: headerTargets ops := rfl

@[simp] theorem headerTargets_cons_copy (a b c : Int) (ops : List SendOp) :
    headerTargets (SendOp.copy a b c :: ops) = headerTargets ops := rfl

theorem forwardLoop_state_replyMap (net : Transport) (m : Msg) (uid : Int)
    (header : String) :
    ∀ (l : List Int) (st : BotState), ∃ rm,
      (forwardLoop net m uid header l st).1 = { st with replyMap := rm } := by
  intro l
  induction l with
  | nil => exact fun st => ⟨st.replyMap, rfl⟩
  | cons t rest ih =>
    intro st
    by_cases ht : t = m.chatId
    · simpa [forwardLoop, ht] using ih st
    · cases hnet : net t with
      | none =>
        obtain ⟨rm, hrm⟩ := ih st
        exact ⟨rm, by simp [forwardLoop, ht, hnet, hrm]⟩
      | some hid =>
        obtain ⟨rm, hrm⟩ :=
          ih { st with replyMap := recordHeader st.replyMap t hid uid }
        by_cases htext : (m.text.getD "") = "" <;>
          exact ⟨rm, by simp [forwardLoop, ht, hnet, htext, hrm]⟩

theorem forwardLoop_headerTargets (net : Transport) (m : Msg) (uid : Int)
    (header : String) :
    ∀ (l : List Int) (st : BotState),
      headerTargets (forwardLoop net m uid header l st).2 =
        l.filter (fun t => t ≠ m.chatId) := by
  intro l
  induction l with
  | nil => intro st; simp [forwardLoop]
  | cons t rest ih =>
    intro st
    by_cases ht : t = m.chatId
    · simp [forwardLoop, ht, ih]
    · cases hnet : net t with
      | none => simp [forwardLoop, ht, hnet, ih]
      | some hid =>
        by_cases htext : (m.text.getD "") = "" <;>
          simp [forwardLoop, ht, hnet, htext, ih]

theorem forwardLoop_header_text (net : Transport) (m : Msg) (uid : Int)
    (header : String) :
    ∀ (l : List Int) (st : BotState) (t : Int) (h' : String),
      SendOp.header t h' ∈ (forwardLoop net m uid header l st).2 → h' = header := by
  intro l
  induction l with
  | nil => intro st t h' hmem; simp [forwardLoop] at hmem
  | cons t0 rest ih =>
    intro st t h' hmem
    by_cases ht : t0 = m.chatId
    · exact ih st t h' (by simpa [forwardLoop, ht] using hmem)
    · cases hnet : net t0 with
      | none =>
        have hmem' : (t = t0 ∧ h' = header) ∨
            SendOp.header t h' ∈ (forwardLoop net m uid header rest st).2 := by
          simpa [forwardLoop, ht, hnet] using hmem
        rcases hmem' with ⟨_, he⟩ | hrest
        · exact he
        · exact ih st t h' hrest
      | some hid =>
        by_cases htext : (m.text.getD "") = ""
        · have hmem' : (t = t0 ∧ h' = header) ∨
              SendOp.header t h' ∈ (forwardLoop net m uid header rest
                { st with replyMap := recordHeader st.replyMap t0 hid uid }).2 := by
            simpa [forwardLoop, ht, hnet, htext] using hmem
          rcases hmem' with ⟨_, he⟩ | hrest
          · exact he
          · exact ih _ t h' hrest
        · have hmem' : (t = t0 ∧ h' = header) ∨
              SendOp.header t h' ∈ (forwardLoop net m uid header rest
                { st with replyMap := recordHeader st.replyMap t0 hid uid }).2 := by
            simpa [forwardLoop, ht, hnet, htext] using hmem
          rcases hmem' with ⟨_, he⟩ | hrest
          · exact he
          · exact ih _ t h' hrest

theorem forward_if_needed_state (cfg : Config) (net : Transport) (st : BotState)
    (m : Msg) :
    ∃ rm, (forward_if_needed cfg net st m).1 = { st with replyMap := rm } := by
  unfold forward_if_needed
  by_cases h1 : cfg.forwardTo = []
  · exact ⟨st.replyMap, by simp [h1]⟩
  · by_cases h2 : is_owner_id cfg m.userId
    · exact ⟨st.replyMap, by simp [h1, h2]⟩
    · by_cases h3 : m.chatType = TgChatType.priv
      · simpa [h1, h2, h3] using
          forwardLoop_state_replyMap net m (m.userId.getD 0)
            (format_private_header m) cfg.forwardTo st
      · exact ⟨st.replyMap, by simp [h1, h2, h3]⟩

theorem handle_message_st (cfg : Config) (net : Transport) (gpt : GptOutcome)
    (st : BotState) (m : Msg) :
    (handle_message cfg net gpt st m).st = (forward_if_needed cfg net st m).1 := by
  by_cases h1 : m.chatType ≠ TgChatType.priv ∨ get_mode st m.chatId ≠ "chat"
  · simp [handle_message, h1]
  · by_cases h2 : is_authorized_user cfg (forward_if_needed cfg net st m).1 m.userId = false
    · by_cases h3 : cfg.authPassword ≠ "" <;> simp [handle_message, h1, h2, h3]
    · by_cases h4 : pyStrip (m.text.getD "") = "" <;> simp [handle_message, h1, h2, h4]

theorem handle_message_sends (cfg : Config) (net : Transport) (gpt : GptOutcome)
    (st : BotState) (m : Msg) :
    (handle_message cfg net gpt st m).sends = (forward_if_needed cfg net st m).2 := by
  by_cases h1 : m.chatType ≠ TgChatType.priv ∨ get_mode st m.chatId ≠ "chat"
  · simp [handle_message, h1]
  · by_cases h2 : is_authorized_user cfg (forward_if_needed cfg net st m).1 m.userId = false
    · by_cases h3 : cfg.authPassword ≠ "" <;> simp [handle_message, h1, h2, h3]
    · by_cases h4 : pyStrip (m.text.getD "") = "" <;> simp [handle_message, h1, h2, h4]

theorem is_authorized_user_congr (cfg : Config) {st st' : BotState}
    (h : st'.authorizedUsers = st.authorizedUsers) (uid : Option Int) :
    is_authorized_user cfg st' uid = is_authorized_user cfg st uid := by
  cases uid <;> simp [is_authorized_user, h]

/-! ## Claim theorems: forwarding scope and the authorization gate -/

/-- C3: the forwarding step attempts a formatted-header send exactly when the
message is private, non-owner-authored and targets are configured, and then to
every configured destination except the source chat, with the formatted
header as payload; the target set does not mention the mode; and an owner
private message in Forward mode with destinations configured yields no
forward and no AI call. -/
theorem claim3_forward_scope (cfg : Config) (net : Transport) (gpt : GptOutcome)
    (st : BotState) (m : Msg) :
    headerTargets (forward_if_needed cfg net st m).2 =
      (if m.chatType = TgChatType.priv ∧ is_owner_id cfg m.userId = false
          ∧ cfg.forwardTo ≠ [] then
        cfg.forwardTo.filter (fun t => t ≠ m.chatId)
      else []) ∧
    (∀ t h', SendOp.header t h' ∈ (forward_if_needed cfg net st m).2 →
      h' = format_private_header m) ∧
    (is_owner_id cfg m.userId = true → m.chatType = TgChatType.priv →
      get_mode st m.chatId = "forward" → cfg.forwardTo ≠ [] →
      handle_message cfg net gpt st m = ⟨st, [], false, .nothing⟩) := by
  refine ⟨?_, ?_, ?_⟩
  · by_cases h1 : cfg.forwardTo = []
    · simp [forward_if_needed, h1]
    · cases h2 : is_owner_id cfg m.userId
      · by_cases h3 : m.chatType = TgChatType.priv
        · simp [forward_if_needed, h1, h2, h3, forwardLoop_headerTargets]
        · simp [forward_if_needed, h1, h2, h3]
      · simp [forward_if_needed, h1, h2]
  · intro t h' hmem
    by_cases h1 : cfg.forwardTo = []
    · simp [forward_if_needed, h1] at hmem
    · by_cases h2 : is_owner_id cfg m.userId
      · simp [forward_if_needed, h1, h2] at hmem
      · by_cases h3 : m.chatType = TgChatType.priv
        · exact forwardLoop_header_text net m (m.userId.getD 0)
            (format_private_header m) cfg.forwardTo st t h'
            (by simpa [forward_if_needed, h1, h2, h3] using hmem)
        · simp [forward_if_needed, h1, h2, h3] at hmem
  · intro how hpriv hmode hfw
    have hfr : forward_if_needed cfg net st m = (st, []) := by
      simp [forward_if_needed, hfw, how]
    simp [handle_message, hfr, hmode]

/-- C3 witness: with owners `[9]` and targets `[100, 200]` configured, an
owner private message in Forward mode produces no header sends, no forward
and no AI call. -/
theorem claim3_forward_scope_witness :
    headerTargets (forward_if_needed ⟨[100, 200], [9], "gpt-5-mini", ""⟩
      (fun t => some (t + 1)) initialState
      ⟨5, .priv, some 9, "Boss", some "boss", 11, some "hello", none⟩).2 = [] ∧
    handle_message ⟨[100, 200], [9], "gpt-5-mini", ""⟩ (fun t => some (t + 1))
      (.success "ok") initialState
      ⟨5, .priv, some 9, "Boss", some "boss", 11, some "hello", none⟩
      = ⟨initialState, [], false, .nothing⟩ := by
  have h := claim3_forward_scope ⟨[100, 200], [9], "gpt-5-mini", ""⟩
    (fun t => some (t + 1)) (.success "ok") initialState
    ⟨5, .priv, some 9, "Boss", some "boss", 11, some "hello", none⟩
  exact ⟨h.1.trans (by decide), h.2.2 (by decide) rfl rfl (by decide)⟩

/-- C4: for a private message in Chat mode from an unauthorized sender, the
handler answers with the access-restricted notice (wording selected by
whether a password is configured) and never invokes the provider. -/
theorem claim4_unauthorized_gate (cfg : Config) (net : Transport)
    (gpt : GptOutcome) (st : BotState) (m : Msg)
    (hpriv : m.chatType = TgChatType.priv)
    (hmode : get_mode st m.chatId = "chat")
    (hauth : is_authorized_user cfg st m.userId = false) :
    (handle_message cfg net gpt st m).gptCalled = false ∧
    (handle_message cfg net gpt st m).action =
      MsgAction.replyText
        (if cfg.authPassword ≠ "" then
          "🔐 Unauthorized. Use /auth <password> to enable GPT chat."
        else "🔐 GPT chat is restricted. Contact the owner for access.") := by
  obtain ⟨rm, hrm⟩ := forward_if_needed_state cfg net st m
  have hauth1 :
      is_authorized_user cfg (forward_if_needed cfg net st m).1 m.userId = false := by
    rw [hrm, is_authorized_user_congr cfg rfl m.userId]
    exact hauth
  by_cases h3 : cfg.authPassword ≠ "" <;>
    simp [handle_message, hauth1, h3, hpriv, hmode]

/-- C4 witness: a non-owner, unauthorized sender saying hello in a private
chat in Chat mode with no password configured gets the restricted notice and
no provider call. -/
theorem claim4_unauthorized_gate_witness :
    (handle_message ⟨[], [], "gpt-5-mini", ""⟩ (fun _ => none) (.success "ok")
      (set_mode initialState 5 "chat")
      ⟨5, .priv, some 5, "Bob", none, 1, some "hello", none⟩).gptCalled = false ∧
    (handle_message ⟨[], [], "gpt-5-mini", ""⟩ (fun _ => none) (.success "ok")
      (set_mode initialState 5 "chat")
      ⟨5, .priv, some 5, "Bob", none, 1, some "hello", none⟩).action =
      MsgAction.replyText "🔐 GPT chat is restricted. Contact the owner for access." := by
  have h := claim4_unauthorized_gate ⟨[], [], "gpt-5-mini", ""⟩ (fun _ => none)
    (.success "ok") (set_mode initialState 5 "chat")
    ⟨5, .priv, some 5, "Bob", none, 1, some "hello", none⟩ rfl (by decide) (by decide)
  exact ⟨h.1, h.2.trans (by decide)⟩

/-! ## Claim theorems: authorize, safe send, provider failure -/

/-- C5: `cmd_auth` with a supplied secret behaves as the operation
`authorize(p, secret)` of the spec: owners get Authorized (`ownerAlready`) without the
secret being examined; with no password configured it fails with
`noPasswordMsg` (NoSecretConfigured); a non-matching secret fails with
`wrongPasswordMsg` (WrongSecret) and changes nothing; a matching secret adds
`p` to the authorized set and returns `authorizedMsg` (Authorized), and a
second call with the correct secret succeeds again and leaves `p`
authorized. -/
theorem claim5_authorize (cfg : Config) (st : BotState) (p : Int)
    (secret : String) :
    (is_owner_id cfg (some p) = true →
      cmd_auth cfg st (some p) [secret] = (st, .ownerAlready)) ∧
    (is_owner_id cfg (some p) = false → cfg.authPassword = "" →
      cmd_auth cfg st (some p) [secret] = (st, .noPasswordMsg)) ∧
    (is_owner_id cfg (some p) = false → cfg.authPassword ≠ "" →
      secret ≠ cfg.authPassword →
      cmd_auth cfg st (some p) [secret] = (st, .wrongPasswordMsg)) ∧
    (is_owner_id cfg (some p) = false → cfg.authPassword ≠ "" →
      secret = cfg.authPassword →
      (cmd_auth cfg st (some p) [secret]).2 = .authorizedMsg ∧
      p ∈ (cmd_auth cfg st (some p) [secret]).1.authorizedUsers ∧
      cmd_auth cfg (cmd_auth cfg st (some p) [secret]).1 (some p) [secret] =
        ((cmd_auth cfg st (some p) [secret]).1, .authorizedMsg) ∧
      is_authorized_user cfg (cmd_auth cfg st (some p) [secret]).1 (some p) = true) := by
  refine ⟨?_, ?_, ?_, ?_⟩
  · intro how; simp [cmd_auth, how]
  · intro how hpw; simp [cmd_auth, how, hpw]
  · intro how hpw hne; simp [cmd_auth, how, hpw, hne]
  · intro how hpw heq
    have hstep : cmd_auth cfg st (some p) [secret] =
        ({ st with authorizedUsers := setAdd st.authorizedUsers p }, .authorizedMsg) := by
      simp [cmd_auth, how, hpw, heq]
    refine ⟨by simp [hstep], by simp [hstep, setAdd_mem_self], ?_, ?_⟩
    · rw [hstep]
      have hmem : p ∈ setAdd st.authorizedUsers p := setAdd_mem_self _ _
      simp [cmd_auth, how, hpw, heq, setAdd_of_mem hmem]
    · rw [hstep]
      simp [is_authorized_user, how, List.contains_iff_exists_mem_beq]
      exact setAdd_mem_self _ _

/-- C5 witness: with password `"pw"` and owners `[1]`, the owner
short-circuit, the unset-password failure, the wrong-secret failure, and the
successful idempotent authorization all hold at concrete inputs. -/
theorem claim5_authorize_witness :
    cmd_auth ⟨[], [1], "gpt-5-mini", "pw"⟩ initialState (some 1) ["zzz"]
      = (initialState, .ownerAlready) ∧
    cmd_auth ⟨[], [1], "gpt-5-mini", ""⟩ initialState (some 2) ["pw"]
      = (initialState, .noPasswordMsg) ∧
    cmd_auth ⟨[], [1], "gpt-5-mini", "pw"⟩ initialState (some 2) ["PW"]
      = (initialState, .wrongPasswordMsg) ∧
    (cmd_auth ⟨[], [1], "gpt-5-mini", "pw"⟩ initialState (some 2) ["pw"]).2
      = .authorizedMsg ∧
    is_authorized_user ⟨[], [1], "gpt-5-mini", "pw"⟩
      (cmd_auth ⟨[], [1], "gpt-5-mini", "pw"⟩ initialState (some 2) ["pw"]).1
      (some 2) = true := by
  refine ⟨?_, ?_, ?_, ?_, ?_⟩
  · exact (claim5_authorize ⟨[], [1], "gpt-5-mini", "pw"⟩ initialState 1 "zzz").1
      (by decide)
  · exact (claim5_authorize ⟨[], [1], "gpt-5-mini", ""⟩ initialState 2 "pw").2.1
      (by decide) rfl
  · exact (claim5_authorize ⟨[], [1], "gpt-5-mini", "pw"⟩ initialState 2 "PW").2.2.1
      (by decide) (by decide) (by decide)
  · exact ((claim5_authorize ⟨[], [1], "gpt-5-mini", "pw"⟩ initialState 2 "pw").2.2.2
      (by decide) (by decide) rfl).1
  · exact ((claim5_authorize ⟨[], [1], "gpt-5-mini", "pw"⟩ initialState 2 "pw").2.2.2
      (by decide) (by decide) rfl).2.2.2

/-- C6 (code bug): `_safe_send` hands its second `await` the same coroutine
object that the first `await` already consumed, so a throttled send sleeps
`retry_after + 1` seconds and then raises the reuse `RuntimeError` instead of
yielding a retried send result; a non-throttled send passes through. -/
theorem claim6_retry_reuses_coroutine :
    ∀ (d : Nat) (msgId : Int),
      safe_send ⟨.raiseRetryAfter d, false⟩ = (.raisedReuse, d + 1) ∧
      safe_send ⟨.ok msgId, false⟩ = (.value msgId, 0) := by
  intro d msgId
  exact ⟨rfl, rfl⟩

/-- C7: when the provider call raises, the authorized chat flow still makes
exactly one reply, whose text is the diagnostic beginning with the `❌`
failure marker, and the handler returns normally (it is a total function, so
no exception propagates and the next message can be processed). -/
theorem claim7_provider_failure (cfg : Config) (net : Transport)
    (st : BotState) (m : Msg) (excName excMsg : String)
    (hpriv : m.chatType = TgChatType.priv)
    (hmode : get_mode st m.chatId = "chat")
    (hauth : is_authorized_user cfg st m.userId = true)
    (htext : pyStrip (m.text.getD "") ≠ "") :
    (handle_message cfg net (.failure excName excMsg) st m).gptCalled = true ∧
    (handle_message cfg net (.failure excName excMsg) st m).action =
      MsgAction.replyText ("❌ Error from GPT: " ++ excName ++ ": " ++ excMsg) ∧
    (∃ rest, "❌ Error from GPT: " ++ excName ++ ": " ++ excMsg = "❌" ++ rest) := by
  obtain ⟨rm, hrm⟩ := forward_if_needed_state cfg net st m
  have hauth1 :
      is_authorized_user cfg (forward_if_needed cfg net st m).1 m.userId = true := by
    rw [hrm, is_authorized_user_congr cfg rfl m.userId]
    exact hauth
  refine ⟨?_, ?_, ?_⟩
  · simp [handle_message, hauth1, hpriv, hmode, htext, ask_gpt]
  · simp [handle_message, hauth1, hpriv, hmode, htext, ask_gpt]
  · refine ⟨" Error from GPT: " ++ excName ++ ": " ++ excMsg, ?_⟩
    apply String.ext
    simp only [String.data_append, List.append_assoc]
    rfl

/-- C7 witness: an authorized owner whose chat message hits a raising
provider receives the single diagnostic reply starting with the marker. -/
theorem claim7_provider_failure_witness :
    (handle_message ⟨[], [9], "gpt-5-mini", ""⟩ (fun _ => none)
      (.failure "APIError" "boom") (set_mode initialState 9 "chat")
      ⟨9, .priv, some 9, "Boss", none, 3, some "hi", none⟩).action =
      MsgAction.replyText "❌ Error from GPT: APIError: boom" := by
  have h := claim7_provider_failure ⟨[], [9], "gpt-5-mini", ""⟩ (fun _ => none)
    (set_mode initialState 9 "chat")
    ⟨9, .priv, some 9, "Boss", none, 3, some "hi", none⟩ "APIError" "boom"
    rfl (by decide) (by decide) (by decide)
  exact h.2.1.trans (by decide)

/-! ## Claim theorems: session-store defaults and isolation -/

theorem sessionOp_preserves_mode (st : BotState) (op : SessionOp) (c : Int)
    (h : op.target ≠ c) :
    get_mode (applySessionOp st op) c = get_mode st c := by
  cases op with
  | modeOp c' mode =>
    simp only [SessionOp.target] at h
    simp [applySessionOp, set_mode, get_mode, dictGet_insert_ne _ _ _ _ h]
  | modelOp c' model => simp [applySessionOp, get_mode]

theorem sessionOp_preserves_model (cfg : Config) (st : BotState) (op : SessionOp)
    (c : Int) (h : op.target ≠ c) :
    get_model cfg (applySessionOp st op) c = get_model cfg st c := by
  cases op with
  | modeOp c' mode => simp [applySessionOp, set_mode, get_model]
  | modelOp c' model =>
    simp only [SessionOp.target] at h
    simp [applySessionOp, get_model, dictGet_insert_ne _ _ _ _ h]

theorem sessionOps_preserve_mode (c : Int) :
    ∀ (ops : List SessionOp) (st : BotState),
      (∀ op ∈ ops, SessionOp.target op ≠ c) →
      get_mode (applySessionOps st ops) c = get_mode st c := by
  intro ops
  induction ops with
  | nil => intro st _; rfl
  | cons op rest ih =>
    intro st h
    have h1 : SessionOp.target op ≠ c := h op (List.mem_cons_self _ _)
    have h2 : ∀ o ∈ rest, SessionOp.target o ≠ c :=
      fun o ho => h o (List.mem_cons_of_mem _ ho)
    calc get_mode (applySessionOps st (op :: rest)) c
        = get_mode (applySessionOps (applySessionOp st op) rest) c := rfl
      _ = get_mode (applySessionOp st op) c := ih _ h2
      _ = get_mode st c := sessionOp_preserves_mode st op c h1

theorem sessionOps_preserve_model (cfg : Config) (c : Int) :
    ∀ (ops : List SessionOp) (st : BotState),
      (∀ op ∈ ops, SessionOp.target op ≠ c) →
      get_model cfg (applySessionOps st ops) c = get_model cfg st c := by
  intro ops
  induction ops with
  | nil => intro st _; rfl
  | cons op rest ih =>
    intro st h
    have h1 : SessionOp.target op ≠ c := h op (List.mem_cons_self _ _)
    have h2 : ∀ o ∈ rest, SessionOp.target o ≠ c :=
      fun o ho => h o (List.mem_cons_of_mem _ ho)
    calc get_model cfg (applySessionOps st (op :: rest)) c
        = get_model cfg (applySessionOps (applySessionOp st op) rest) c := rfl
      _ = get_model cfg (applySessionOp st op) c := ih _ h2
      _ = get_model cfg st c := sessionOp_preserves_model cfg st op c h1

/-- C8: a conversation never explicitly set reads mode Forward and the
process default model, even after any sequence of mode/model operations on
other conversations; and after `set_mode c "chat"`, `get_mode c` is `"chat"`
and stays `"chat"` under any operations targeting other conversations. -/
theorem claim8_session_isolation (cfg : Config) (st : BotState)
    (ops : List SessionOp) (c : Int)
    (h : ∀ op ∈ ops, SessionOp.target op ≠ c) :
    get_mode (applySessionOps initialState ops) c = "forward" ∧
    get_model cfg (applySessionOps initialState ops) c = cfg.defaultModel ∧
    get_mode (applySessionOps (set_mode st c "chat") ops) c = "chat" := by
  refine ⟨?_, ?_, ?_⟩
  · rw [sessionOps_preserve_mode c ops initialState h]; rfl
  · rw [sessionOps_preserve_model cfg c ops initialState h]; rfl
  · rw [sessionOps_preserve_mode c ops (set_mode st c "chat") h]
    simp [get_mode, set_mode, dictGet_insert_self]

/-- C8 witness: conversation 1 keeps its defaults, and its Chat mode, under
concrete operations on conversations 2 and 3. -/
theorem claim8_session_isolation_witness :
    get_mode (applySessionOps initialState
      [.modeOp 2 "chat", .modelOp 3 "gpt-5"]) 1 = "forward" ∧
    get_model ⟨[], [], "gpt-5-mini", ""⟩ (applySessionOps initialState
      [.modeOp 2 "chat", .modelOp 3 "gpt-5"]) 1 = "gpt-5-mini" ∧
    get_mode (applySessionOps (set_mode initialState 1 "chat")
      [.modeOp 2 "chat", .modelOp 3 "gpt-5"]) 1 = "chat" :=
  claim8_session_isolation ⟨[], [], "gpt-5-mini", ""⟩ initialState
    [.modeOp 2 "chat", .modelOp 3 "gpt-5"] 1 (by decide)

/-! ## Claim theorems: bounded keyword buffer -/

theorem lastN_absorb (l : List String) (x : String) :
    lastN 5 (lastN 5 l ++ [x]) = lastN 5 (l ++ [x]) := by
  simp [lastN, List.take_take]

theorem foldGroup_retained (gpt : GptOutcome) (model : String) (uid : Int)
    (uname : String) :
    ∀ (texts : List String) (um : List (Int × List String)) (p : List String),
      (∀ t ∈ texts, triggeredBy t = true) →
      (dictGet um uid).getD [] = lastN 5 p →
      (dictGet (foldGroup gpt model uid uname um texts) uid).getD []
        = lastN 5 (p ++ texts) := by
  intro texts
  induction texts with
  | nil => intro um p _ hbase; simpa [foldGroup] using hbase
  | cons t rest ih =>
    intro um p hall hbase
    have ht : triggeredBy t = true := hall t (List.mem_cons_self _ _)
    have hrest : ∀ s ∈ rest, triggeredBy s = true :=
      fun s hs => hall s (List.mem_cons_of_mem _ hs)
    have hstep : foldGroup gpt model uid uname um (t :: rest) =
        foldGroup gpt model uid uname (dictInsert uid (lastN 5 (p ++ [t])) um) rest := by
      simp [foldGroup, group_step, ht, hbase, lastN_absorb]
    rw [hstep]
    have h2 : (dictGet (dictInsert uid (lastN 5 (p ++ [t])) um) uid).getD
        ([] : List String) = lastN 5 (p ++ [t]) := by
      simp [dictGet_insert_self]
    have h3 := ih (dictInsert uid (lastN 5 (p ++ [t])) um) (p ++ [t]) hrest h2
    simpa using h3

/-- C9: after a sequence of keyword-matching group messages from one sender,
the retained per-sender buffer is exactly the most recent `min(n, 5)` of them
in arrival order, and the summary prompt and owner alert produced for the
latest message are built from exactly that buffer. -/
theorem claim9_keyword_buffer (gpt : GptOutcome) (model : String) (uid : Int)
    (uname : String) (msgs : List String) (t : String)
    (hall : ∀ s ∈ msgs, triggeredBy s = true) (ht : triggeredBy t = true) :
    (dictGet (group_step gpt model
        (foldGroup gpt model uid uname [] msgs) uid uname t).1 uid).getD []
      = lastN 5 (msgs ++ [t]) ∧
    (lastN 5 (msgs ++ [t])).length = min (msgs.length + 1) 5 ∧
    (group_step gpt model (foldGroup gpt model uid uname [] msgs) uid uname t).2 =
      some ⟨summary_prompt_for (lastN 5 (msgs ++ [t])),
            owner_body_for uname uid (lastN 5 (msgs ++ [t]))
              (ask_gpt_backup gpt (summary_prompt_for (lastN 5 (msgs ++ [t]))) model),
            "🔔 Hey @" ++ uname ++ ", your message triggered a keyword alert!"⟩ := by
  have hbase : (dictGet ([] : List (Int × List String)) uid).getD []
      = lastN 5 ([] : List String) := by simp [dictGet, lastN]
  have hret := foldGroup_retained gpt model uid uname msgs [] [] hall hbase
  simp only [List.nil_append] at hret
  refine ⟨?_, ?_, ?_⟩
  · simp [group_step, ht, hret, dictGet_insert_self, lastN_absorb]
  · simp only [lastN, List.length_reverse, List.length_take, List.length_append,
      List.length_singleton]
    omega
  · simp [group_step, ht, hret, lastN_absorb]

/-- C9 witness: five matching messages followed by a sixth retain exactly
messages two through six, in order. -/
theorem claim9_keyword_buffer_witness :
    (dictGet (group_step (.success "S") "gpt-5-mini"
        (foldGroup (.success "S") "gpt-5-mini" 8 "bob" []
          ["rent 1", "rent 2", "rent 3", "rent 4", "rent 5"]) 8 "bob" "rent 6").1
        8).getD []
      = ["rent 2", "rent 3", "rent 4", "rent 5", "rent 6"] := by
  have h := claim9_keyword_buffer (.success "S") "gpt-5-mini" 8 "bob"
    ["rent 1", "rent 2", "rent 3", "rent 4", "rent 5"] "rent 6"
    (by decide) (by decide)
  exact h.1.trans (by decide)

/-! ## Claim theorems: monotone authorization set -/

theorem handle_message_authorizedUsers (cfg : Config) (net : Transport)
    (gpt : GptOutcome) (st : BotState) (m : Msg) :
    (handle_message cfg net gpt st m).st.authorizedUsers = st.authorizedUsers := by
  rw [handle_message_st]
  obtain ⟨rm, hrm⟩ := forward_if_needed_state cfg net st m
  rw [hrm]

/-- C10: no operation of the bot removes a user from `AUTHORIZED_USERS`: a
user authorized before any dispatched update is still authorized after it
(the only mutation anywhere is the insertion in `cmd_auth`). -/
theorem claim10_authorization_monotone (cfg : Config) (net : Transport)
    (gpt : GptOutcome) (st : BotState) (m : Msg) (u : Int)
    (h : u ∈ st.authorizedUsers) :
    u ∈ (dispatch cfg net gpt st m).1.authorizedUsers := by
  rcases hp : parseCommand (m.text.getD "") with _ | _ | ⟨c, args⟩
  · by_cases hr : m.replyToMessageId.isSome
    · simpa [dispatch, hp, hr] using h
    · by_cases htxt : m.text.isSome
      · simpa [dispatch, hp, hr, htxt, handle_message_authorizedUsers] using h
      · simpa [dispatch, hp, hr, htxt] using h
  · by_cases hr : m.replyToMessageId.isSome
    · simpa [dispatch, hp, hr] using h
    · simpa [dispatch, hp, hr] using h
  · cases c with
    | start => simpa [dispatch, hp, runCommand] using h
    | status => simpa [dispatch, hp, runCommand] using h
    | ping => simpa [dispatch, hp, runCommand] using h
    | chat => simpa [dispatch, hp, runCommand, set_mode] using h
    | forward => simpa [dispatch, hp, runCommand, set_mode] using h
    | model =>
      cases args with
      | nil => simpa [dispatch, hp, runCommand] using h
      | cons a rest => simpa [dispatch, hp, runCommand] using h
    | auth =>
      cases hu : m.userId with
      | none => simpa [dispatch, hp, runCommand, cmd_auth, hu] using h
      | some uid =>
        by_cases how : is_owner_id cfg (some uid)
        · simpa [dispatch, hp, runCommand, cmd_auth, hu, how] using h
        · by_cases hpw : cfg.authPassword = ""
          · simpa [dispatch, hp, runCommand, cmd_auth, hu, how, hpw] using h
          · cases args with
            | nil => simpa [dispatch, hp, runCommand, cmd_auth, hu, how, hpw] using h
            | cons a rest =>
              by_cases heq : a = cfg.authPassword
              · have : u ∈ setAdd st.authorizedUsers uid := mem_setAdd_of_mem uid h
                simpa [dispatch, hp, runCommand, cmd_auth, hu, how, hpw, heq] using this
              · simpa [dispatch, hp, runCommand, cmd_auth, hu, how, hpw, heq] using h

/-- C10 witness: user 7, already authorized, stays authorized after another
user successfully authorizes with the password. -/
theorem claim10_authorization_monotone_witness :
    (7 : Int) ∈ (dispatch ⟨[], [1], "gpt-5-mini", "pw"⟩ (fun _ => none)
      (.success "ok") ⟨[7], [], [], []⟩
      ⟨6, .priv, some 6, "Eve", none, 2, some "/auth pw", none⟩).1.authorizedUsers :=
  claim10_authorization_monotone ⟨[], [1], "gpt-5-mini", "pw"⟩ (fun _ => none)
    (.success "ok") ⟨[7], [], [], []⟩
    ⟨6, .priv, some 6, "Eve", none, 2, some "/auth pw", none⟩ 7 (by decide)

/-! ## Claim theorems: router step order (corrected) -/

/-- C2 counterexample: for a private non-owner text reply whose replied-to id
was never recorded, the spec router (reply check non-terminal when `resolve`
yields nothing) forwards to the configured destination, but the dispatched
code consumes the update in `handle_reply` and does nothing: the reply check
is terminal for every reply, resolved or not. -/
theorem claim2_route_order_counterexample :
    (specRoute ⟨[100], [], "gpt-5-mini", ""⟩ initialState
      ⟨5, .priv, some 5, "Bob", none, 77, some "hi", some 42⟩).forwardedTo = [100] ∧
    dispatch ⟨[100], [], "gpt-5-mini", ""⟩ (fun _ => some 900) (.success "ok")
      initialState ⟨5, .priv, some 5, "Bob", none, 77, some "hi", some 42⟩
      = (initialState, .replyBridge .nothing) :=
  ⟨rfl, rfl⟩

/-- C2 amended: the handlers run in the stated order, but because all are in
one handler group, the reply-to-header check consumes every non-command reply
whether or not `resolve` succeeds — an unresolved reply is dropped, not
passed on to forwarding or AI chat; non-reply non-command texts go through
`handle_message` (forwarding, then AI chat or no-op), and each update gets
exactly one terminal action. `handle_reply` delivers nothing exactly when the
key does not resolve (or resolves to the falsy id 0). -/
theorem claim2_route_order_amended (cfg : Config) (net : Transport)
    (gpt : GptOutcome) (st : BotState) (m : Msg)
    (hcmd : parseCommand (m.text.getD "") = CmdParse.notCommand) :
    (∀ rid, m.replyToMessageId = some rid →
      dispatch cfg net gpt st m = (st, .replyBridge (handle_reply st m)) ∧
      (handle_reply st m = .nothing ↔
        (resolve st.replyMap m.chatId rid = none ∨
         resolve st.replyMap m.chatId rid = some 0))) ∧
    (m.replyToMessageId = none → m.text.isSome = true →
      dispatch cfg net gpt st m =
        ((handle_message cfg net gpt st m).st,
         .handled (handle_message cfg net gpt st m).sends
           (handle_message cfg net gpt st m).gptCalled
           (handle_message cfg net gpt st m).action)) := by
  constructor
  · intro rid hrid
    constructor
    · simp [dispatch, hcmd, hrid]
    · rw [handle_reply, hrid]
      cases hres : resolve st.replyMap m.chatId rid with
      | none => simp [hres]
      | some uid =>
        by_cases h0 : uid = 0
        · simp [hres, h0]
        · by_cases htxt : (m.text.getD "") ≠ "" <;> simp [hres, h0, htxt]
  · intro hrid htxt
    simp [dispatch, hcmd, hrid, htxt]

/-- C2 amended witness: a resolved reply is dispatched to the bridge and
delivered; a non-reply text is dispatched to `handle_message`. -/
theorem claim2_route_order_amended_witness :
    dispatch ⟨[100], [], "gpt-5-mini", ""⟩ (fun _ => some 900) (.success "ok")
      ⟨[], [], [], [((100, 42), 5)]⟩
      ⟨100, .group, some 9, "Op", none, 77, some "hi back", some 42⟩
      = (⟨[], [], [], [((100, 42), 5)]⟩,
         .replyBridge (handle_reply ⟨[], [], [], [((100, 42), 5)]⟩
           ⟨100, .group, some 9, "Op", none, 77, some "hi back", some 42⟩)) := by
  exact ((claim2_route_order_amended ⟨[100], [], "gpt-5-mini", ""⟩
    (fun _ => some 900) (.success "ok") ⟨[], [], [], [((100, 42), 5)]⟩
    ⟨100, .group, some 9, "Op", none, 77, some "hi back", some 42⟩
    (by decide)).1 42 rfl).1

end TgBot
